import Mathlib

/-
  Verification development for the site-automation tool (bulk_create.py).
  The Python functions under scrutiny are embedded shallowly below:
  pure string manipulation is modelled over List Char, Python dicts are
  modelled as association lists with last-write-wins semantics, Python
  sets as membership-faithful lists in first-insertion order, and the
  HTTP layer is abstracted as explicit inputs (the decoded response
  bodies the code would have received).
-/

/-- Whitespace characters removed by the Python str.strip default
(ASCII approximation of the unicode whitespace class). -/
def isPySpace (c : Char) : Bool :=
  c.isWhitespace || c = '\x0b' || c = '\x0c'

/-- Characters of a Python str.strip result. -/
def stripChars (l : List Char) : List Char :=
  ((l.dropWhile isPySpace).reverse.dropWhile isPySpace).reverse

/-- Python str.strip with default arguments. -/
def pyStrip (s : String) : String := ⟨stripChars s.data⟩

/-- Python str.lower (ASCII case mapping). -/
def pyLower (s : String) : String := ⟨s.data.map Char.toLower⟩

/-- Python truthiness-based disjunction on strings: a or b. -/
def py_or (a b : String) : String := if a ≠ "" then a else b

/-- Python s.split(sep) for a one-character separator. -/
def split_chars (sep : Char) : List Char → List (List Char)
  | [] => [[]]
  | c :: rest =>
    match split_chars sep rest with
    | [] => [[c]]
    | h :: t => if c = sep then [] :: h :: t else (c :: h) :: t

/-- Python s.split(sep) lifted to String. -/
def pySplit (s : String) (sep : Char) : List String :=
  (split_chars sep s.data).map fun l => ⟨l⟩

/-- Characters before the first occurrence of c: Python s.split(c)[0]. -/
def take_until (c : Char) (l : List Char) : List Char :=
  l.takeWhile (fun a => a ≠ c)

/-- Python s.split(c)[0] lifted to String. -/
def str_take_until (c : Char) (s : String) : String := ⟨take_until c s.data⟩

/-- Adding an element to a Python-set model: membership-faithful list in
first-insertion order. -/
def insertOnce (l : List String) (x : String) : List String :=
  if x ∈ l then l else l ++ [x]

/-- Characters of a Python str.join with a comma separator. -/
def join_comma_chars : List (List Char) → List Char
  | [] => []
  | [x] => x
  | x :: y :: t => x ++ (',' :: join_comma_chars (y :: t))

/-- Python ",".join. -/
def join_comma (l : List String) : String := ⟨join_comma_chars (l.map (·.data))⟩

/-- Python ", ".join. -/
def join_comma_space : List String → String
  | [] => ""
  | [x] => x
  | x :: y :: t => x ++ ", " ++ join_comma_space (y :: t)

/-- Python dict assignment d[k] = v on an association-list model. -/
def assoc_update (m : List (String × String)) (k v : String) : List (String × String) :=
  match m with
  | [] => [(k, v)]
  | (k0, v0) :: rest => if k0 = k then (k, v) :: rest else (k0, v0) :: assoc_update rest k v

/-- Python dict lookup d.get(k) on an association-list model. -/
def assoc_lookup (m : List (String × String)) (k : String) : Option String :=
  match m with
  | [] => none
  | (k0, v0) :: rest => if k0 = k then some v0 else assoc_lookup rest k

/-- Python set(d.values()) modelled in first-insertion order. -/
def dedup_vals (m : List (String × String)) : List String :=
  m.foldl (fun acc p => insertOnce acc p.2) []

/-- Decidable substring test on character lists (needle occurs in haystack). -/
def starts_with_pat : List Char → List Char → Bool
  | _, [] => true
  | [], _ :: _ => false
  | a :: as, b :: bs => a = b && starts_with_pat as bs

/-- Decidable substring containment: does pat occur inside l. -/
def has_sub : List Char → List Char → Bool
  | [], pat => pat.isEmpty
  | a :: rest, pat => starts_with_pat (a :: rest) pat || has_sub rest pat

/- ------------------------------------------------------------------
   Interface discovery: discover_iface_inventory (bulk_create.py 460-500)
   ------------------------------------------------------------------ -/

/-- One entry of a per-gateway interface list as returned by
GET /api/v2/Gateway/interfaces. -/
structure IfaceRec where
  name : String
  interface_type : String
deriving DecidableEq

/-- One per-gateway record of the interfaces response. -/
structure GwIfaces where
  gateway_id : String
  interfaces : List IfaceRec
deriving DecidableEq

/-- Python _clean_iface: (x or "").strip().lower(). -/
def clean_iface (x : String) : String := pyLower (pyStrip x)

/-- Accumulator of the inner loop of discover_iface_inventory:
the ha-link dict, the management-name set, and the
names_trackable set local to the current gateway. -/
structure IfaceAcc where
  ha : List (String × String)
  mgmt : List String
  track : List String
deriving DecidableEq

/-- Body of the inner for-loop of discover_iface_inventory: classify one
interface record of gateway gwid. -/
def iface_step (gwid : String) (acc : IfaceAcc) (itf : IfaceRec) : IfaceAcc :=
  let name := clean_iface itf.name
  if name = "" then acc
  else
    let itype := clean_iface itf.interface_type
    if itype = "ha" then { acc with ha := assoc_update acc.ha gwid name }
    else if itype = "management" then { acc with mgmt := insertOnce acc.mgmt name }
    else if itype = "lan" ∨ itype = "wan" then { acc with track := insertOnce acc.track name }
    else acc

/-- The per-gateway trackable (lan or wan) interface-name set derived by
the inner loop of discover_iface_inventory. -/
def gw_trackables (gw : GwIfaces) : List String :=
  (gw.interfaces.foldl (iface_step gw.gateway_id) ⟨[], [], []⟩).track

/-- Accumulator of the outer loop of discover_iface_inventory. -/
structure DiscAcc where
  ha : List (String × String)
  mgmt : List String
  per_gw : List (List String)
deriving DecidableEq

/-- The guard of the outer loop: the record names a gateway of the
requested set (if not gwid or gwid not in gw_ids: continue). -/
def gw_matches (gwSet : List String) (gw : GwIfaces) : Bool :=
  decide (gw.gateway_id ≠ "" ∧ gw.gateway_id ∈ gwSet)

/-- Body of the outer for-loop of discover_iface_inventory. -/
def process_gw (gwSet : List String) (acc : DiscAcc) (gw : GwIfaces) : DiscAcc :=
  if gw_matches gwSet gw then
    let st := gw.interfaces.foldl (iface_step gw.gateway_id) ⟨acc.ha, acc.mgmt, []⟩
    ⟨st.ha, st.mgmt, acc.per_gw ++ [st.track]⟩
  else acc

/-- The requested gateway-id set:
set of g.strip() for g in gateways_str.split(",") if g.strip().
Only membership is consumed, so a list models the Python set. -/
def gw_id_list (gateways_str : String) : List String :=
  ((pySplit gateways_str ',').map pyStrip).filter (fun g => g ≠ "")

/-- The outer loop of discover_iface_inventory over the response items. -/
def discover_fold (items : List GwIfaces) (gwSet : List String) : DiscAcc :=
  items.foldl (process_gw gwSet) ⟨[], [], []⟩

/-- Python set.intersection over a list of sets, empty list giving the
empty set (common_trackables = set.intersection(star per_gw_trackables)
if per_gw_trackables else set()). -/
def inter_all : List (List String) → List String
  | [] => []
  | h :: t => t.foldl (fun acc s => acc.filter (fun x => x ∈ s)) h

/-- discover_iface_inventory: from the interfaces response and the
requested gateway-id string, derive (ha_link_map, mgmt_names,
common_trackables).  The HTTP fetch is abstracted as the decoded
response list items. -/
def discover_iface_inventory (items : List GwIfaces) (gateways_str : String) :
    List (String × String) × List String × List String :=
  let acc := discover_fold items (gw_id_list gateways_str)
  (acc.ha, acc.mgmt, inter_all acc.per_gw)

/- ------------------------------------------------------------------
   VRID sanitization and the VRRP payload builder
   (bulk_create.py 503-653)
   ------------------------------------------------------------------ -/

/-- Valid digit body of a Python int literal: digits with single
underscores allowed only between digits. -/
def digits_ok : List Char → Bool
  | [] => false
  | [c] => c.isDigit
  | c :: c2 :: rest =>
    c.isDigit &&
      (if c2 = '_' then
        (match rest with
         | [] => false
         | _ :: _ => digits_ok rest)
      else digits_ok (c2 :: rest))

/-- Numeric value of a digit character. -/
def digit_val (c : Char) : Nat := c.toNat - '0'.toNat

/-- Decimal value of a digit string, ignoring the underscore separators. -/
def digits_value (l : List Char) : Nat :=
  (l.filter (fun c => c ≠ '_')).foldl (fun a c => a * 10 + digit_val c) 0

/-- Python int(s) on a decimal string: optional surrounding whitespace,
optional sign, then digits (with underscore separators); none models the
ValueError raised on anything else. -/
def py_int_of_string (s : String) : Option Int :=
  let t := stripChars s.data
  match t with
  | '+' :: rest => if digits_ok rest then some (Int.ofNat (digits_value rest)) else none
  | '-' :: rest => if digits_ok rest then some (-(Int.ofNat (digits_value rest))) else none
  | _ => if digits_ok t then some (Int.ofNat (digits_value t)) else none

/-- The vrid sanitization block of build_vrrp_payload:
try n = int(str(vrid).strip()); n = max(1, min(255, n)) except: vrid = "16". -/
def sanitize_vrid (vrid : String) : String :=
  match py_int_of_string (pyStrip vrid) with
  | some n => toString (max 1 (min 255 n))
  | none => "16"

/-- The sites.csv row fields consumed by the VRRP builder
(row.get(k, "") defaults the absent columns to the empty string). -/
structure SiteRowCsv where
  vrrp_link_interface : String := ""
  vrrp_track_extra : String := ""
  wan_interface_name : String := ""
  wan0_interface_name : String := ""
  wan0_interface : String := ""
  wan_interface : String := ""
  wan1_interface_name : String := ""
  wan1_interface : String := ""
deriving DecidableEq

/-- Python _unique_preserve: clean each entry, drop empties and
duplicates, keep first-occurrence order.  The source keeps a separate
seen set whose contents always coincide with the output list. -/
def unique_preserve (seq : List String) : List String :=
  seq.foldl (fun out s =>
    let c := clean_iface s
    if c = "" ∨ c ∈ out then out else out ++ [c]) []

/-- _collect_wan_ifaces_from_row: the recognized WAN column aliases in
source order, cleaned, non-empty, de-duplicated. -/
def collect_wan_ifaces_from_row (row : SiteRowCsv) : List String :=
  unique_preserve
    (([row.wan_interface_name, row.wan0_interface_name, row.wan0_interface,
       row.wan_interface, row.wan1_interface_name, row.wan1_interface].map clean_iface).filter
      (fun v => v ≠ ""))

/-- The VLAN record shape shared by the CSV loader, the v2 payload
builder and the post-submission correlation.  Absent dict keys are
encoded as the empty string. -/
structure Vlan where
  name : String := ""
  display_name : String := ""
  interface : String := ""
  subnet : String := ""
  tag : String := ""
  default_gateway : String := ""
  start_ip : String := ""
  zone : String := ""
  ip_range : String := ""
  enabled : Bool := true
  share_over_vpn : Bool := false
  dhcp_service : String := ""
  dhcp_range : String := ""
  id : String := ""
deriving DecidableEq

/-- _collect_lan_ifaces_from_vlans: base names of the VLAN interfaces,
first comma part, VLAN sub-interface suffix stripped, excluding mgmt and
the given exclusion set, first occurrence order. -/
def collect_lan_ifaces_from_vlans (vlans : List Vlan) (exclude : List String) : List String :=
  let ex := exclude.map clean_iface
  vlans.foldl (fun found v =>
    let if0 := clean_iface v.interface
    if if0 = "" then found
    else
      let if1 := pyStrip (str_take_until ',' if0)
      let if2 := if '.' ∈ if1.data then str_take_until '.' if1 else if1
      if if2 = "" ∨ if2 = "mgmt" ∨ if2 ∈ ex then found
      else if if2 ∈ found then found else found ++ [if2]) []

/-- The CSV HA-link override: row vrrp_link_interface stripped, lowered,
and cut before any VLAN sub-interface dot. -/
def csv_link_of (row : SiteRowCsv) : String :=
  let c := pyLower (pyStrip row.vrrp_link_interface)
  if '.' ∈ c.data then str_take_until '.' c else c

/-- ha_names = set(ha_link_map.values()); the source then takes
next(iter(ha_names)), whose CPython order is hash-dependent; the model
fixes first-insertion order. -/
def ha_names_of (items : List GwIfaces) (gateways_str : String) : List String :=
  dedup_vals (discover_iface_inventory items gateways_str).1

/-- link_name_to_exclude = csv_link or (next(iter(ha_names)) if ha_names
else ""). -/
def link_exclude_of (items : List GwIfaces) (gateways_str : String) (row : SiteRowCsv) : String :=
  let c := csv_link_of row
  if c ≠ "" then c
  else
    match ha_names_of items gateways_str with
    | [] => ""
    | n :: _ => n

/-- raw_track = _unique_preserve(wan_ifaces + lan_ifaces). -/
def raw_track_of (row : SiteRowCsv) (vlans : List Vlan) : List String :=
  let wan := collect_wan_ifaces_from_row row
  unique_preserve (wan ++ collect_lan_ifaces_from_vlans vlans wan)

/-- The optional CSV extras: row vrrp_track_extra stripped and lowered,
split on commas, entries stripped, empties dropped. -/
def extra_list_of (row : SiteRowCsv) : List String :=
  let extras := pyLower (pyStrip row.vrrp_track_extra)
  if extras = "" then []
  else ((pySplit extras ',').map pyStrip).filter (fun x => x ≠ "")

/-- The final VRRP track-interface list of build_vrrp_payload: raw
candidates minus management names, minus the chosen link interface,
intersected with common_trackables, then the filtered CSV extras
appended. -/
def final_track_list (items : List GwIfaces) (gateways_str : String) (row : SiteRowCsv)
    (vlans : List Vlan) : List String :=
  let inv := discover_iface_inventory items gateways_str
  let mgmt := inv.2.1
  let common := inv.2.2
  let lx := link_exclude_of items gateways_str row
  let track_filtered := (raw_track_of row vlans).filter
    (fun i => i ≠ "" ∧ i ∉ mgmt ∧ i ≠ "mgmt" ∧ i ≠ lx)
  let base := track_filtered.filter (fun i => i ∈ common)
  (extra_list_of row).foldl
    (fun tf e => if e ∈ common ∧ e ∉ mgmt ∧ e ≠ lx ∧ e ∉ tf then tf ++ [e] else tf) base

/-- The VRRP payload posted to /api/v3/vrrp/config. -/
structure VrrpPayload where
  virtual_router_id : String
  advert_int : Int
  priority : Int
  vip : String
  authentication_password : String
  track_interface : List (String × String)
  vrrp_interface : List (String × String)
deriving DecidableEq

/-- Message of the SystemExit raised when a peer has no discovered ha
interface and no CSV override is given (quotes and the leading emoji of
the source text elided). -/
def ha_link_missing_msg : String :=
  "VRRP HA link unknown for some gateways (no ha iface discovered). Add vrrp_link_interface in sites.csv or verify template brings up HA ports."

/-- Message of the SystemExit raised when the validated track list is
empty (leading emoji of the source text elided). -/
def empty_track_msg : String :=
  "VRRP track list empty after validation. Ensure WAN-LAN names in CSVs match real device interfaces and exist on both HA peers."

/-- build_vrrp_payload (bulk_create.py 562-653).  The interface
discovery fetch is abstracted as the decoded response items; SystemExit
is modelled as Except.error, the standalone early return (no comma in
the gateway-id string) as ok none, and success as
ok (some (payload, link_iface_used, track_value)). -/
def build_vrrp_payload (items : List GwIfaces) (gateways_str : String) (row : SiteRowCsv)
    (vlans : List Vlan) (vrid : String) :
    Except String (Option (VrrpPayload × String × String)) :=
  if ',' ∉ gateways_str.data then Except.ok none
  else
    let vrid2 := sanitize_vrid vrid
    let inv := discover_iface_inventory items gateways_str
    let csv_link := csv_link_of row
    let keys := gw_id_list gateways_str
    if csv_link = "" ∧
        (keys.filter (fun k => (assoc_lookup inv.1 k).getD "" = "")) ≠ [] then
      Except.error ha_link_missing_msg
    else
      let track_final := final_track_list items gateways_str row vlans
      if track_final = [] then Except.error empty_track_msg
      else
        let lx := link_exclude_of items gateways_str row
        let link_used := if csv_link ≠ "" then csv_link else lx
        let track_value := join_comma track_final
        let payload : VrrpPayload :=
          { virtual_router_id := vrid2
            advert_int := 10
            priority := 254
            vip := "0.0.0.0"
            authentication_password := ""
            track_interface := keys.map (fun k => (k, track_value))
            vrrp_interface := keys.map
              (fun k => (k, if csv_link ≠ "" then csv_link else (assoc_lookup inv.1 k).getD "")) }
        Except.ok (some (payload, link_used, track_value))

/- ------------------------------------------------------------------
   Central request wrapper with 401 refresh
   (_request_with_auto_refresh, bulk_create.py 157-162, and
   _refresh_bearer_and_update_session, 90-106)
   ------------------------------------------------------------------ -/

/-- An HTTP response as far as the wrapper inspects it. -/
structure HttpResponse where
  status : Int
  text : String
deriving DecidableEq

/-- What the wrapper did: the response it returned, the bearer left on
the session, how many token refreshes it attempted, and how many times
it issued the underlying request. -/
structure RequestTrace where
  response : HttpResponse
  bearer : String
  refresh_attempts : Nat
  requests_sent : Nat
deriving DecidableEq

/-- _request_with_auto_refresh: issue the request with the session
bearer; on a 401, attempt one token refresh (refresh_result none models
a failed _refresh_bearer_and_update_session, some nb a success that
stores nb on the session) and reissue the identical request once with
the new token; otherwise return the first response unchanged. -/
def request_with_auto_refresh (send : String → HttpResponse)
    (refresh_result : Option String) (bearer : String) : RequestTrace :=
  let r := send bearer
  if r.status = 401 then
    match refresh_result with
    | some nb => ⟨send nb, nb, 1, 2⟩
    | none => ⟨r, bearer, 1, 1⟩
  else ⟨r, bearer, 0, 1⟩

/- ------------------------------------------------------------------
   resolve_gateway_ids_and_cluster (bulk_create.py 415-439)
   ------------------------------------------------------------------ -/

/-- One row of the site lookup, as far as the resolver inspects it:
the gateway_id of each nested gateway entry (absent modelled as the
empty string) and cluster_info.cluster_id. -/
structure SiteRow where
  gateways : List String
  cluster_id : Option Int
deriving DecidableEq

/-- Python truthiness of an optional integer (None and 0 are falsy). -/
def opt_truthy : Option Int → Bool
  | none => false
  | some n => n != 0

/-- Python truthiness of an optional string (None and "" are falsy). -/
def str_opt_truthy : Option String → Bool
  | none => false
  | some s => s != ""

/-- The gw_ids_str derived from one looked-up row: the non-empty
gateway ids joined by commas, None when there are none. -/
def gw_ids_str_of (row : SiteRow) : Option String :=
  let ids := row.gateways.filter (fun g => g ≠ "")
  if ids = [] then none else some (join_comma ids)

/-- One iteration's cl_id value: start from the caller hint and replace
it with a discovered cluster id only when the hint is falsy and the
found one truthy (if not cl_id and found_cluster). -/
def cl_of (wanted : Option Int) (found : Option SiteRow) : Option Int :=
  match found with
  | none => wanted
  | some row =>
    if !opt_truthy wanted && opt_truthy row.cluster_id then row.cluster_id else wanted

/-- The polling loop of resolve_gateway_ids_and_cluster: fuel counts the
remaining attempts, i the current attempt index; find i is the row the
i-th find_site_row_by_name lookup returned (the sleeps are irrelevant to
the returned value). -/
def resolve_go (find : Nat → Option SiteRow) (wanted : Option Int) :
    Nat → Nat → Option String × Option Int
  | 0, _ => (none, if opt_truthy wanted then wanted else none)
  | fuel + 1, i =>
    let gw := (find i).bind gw_ids_str_of
    let cl := cl_of wanted (find i)
    if opt_truthy wanted && str_opt_truthy gw then (gw, wanted)
    else if str_opt_truthy gw && opt_truthy cl then (gw, cl)
    else resolve_go find wanted fuel (i + 1)

/-- resolve_gateway_ids_and_cluster: poll up to max 1 retries times. -/
def resolve_gateway_ids_and_cluster (find : Nat → Option SiteRow) (prefer_cluster_id : Option Int)
    (retries : Nat) : Option String × Option Int :=
  resolve_go find prefer_cluster_id (max 1 retries) 0

/- ------------------------------------------------------------------
   VLAN correlation after submission
   (_vlan_key, bulk_create.py 748-753, and the find_id_for closure plus
   the enable and share-over-vpn loops of process_vlans_for_site,
   846-915)
   ------------------------------------------------------------------ -/

/-- _vlan_key: the composite correlation key. -/
def vlan_key (v : Vlan) : String × String × String × String :=
  (pyLower (pyStrip (py_or v.display_name v.name)),
   pyStrip v.tag,
   pyLower (pyStrip v.interface),
   pyStrip (py_or v.default_gateway v.start_ip))

/-- The relaxed fallback scan of find_id_for: first persisted record
whose lower-cased stripped name and raw tag match, and which carries an
id (records matching the name and tag but lacking an id are skipped). -/
def fallback_id (current : List Vlan) (v : Vlan) : Option String :=
  let nm := pyLower (pyStrip (py_or v.display_name v.name))
  let tg := pyStrip v.tag
  (current.find? (fun w =>
      pyLower (pyStrip (py_or w.display_name w.name)) = nm ∧ w.tag = tg ∧ w.id ≠ "")).map
    (fun w => w.id)

/-- find_id_for: the id_map dict comprehension keeps, per composite key,
the last record of the re-fetched list; a keyed hit without an id falls
through to the relaxed scan. -/
def find_id_for (current : List Vlan) (v : Vlan) : Option String :=
  match current.reverse.find? (fun w => vlan_key w = vlan_key v) with
  | some w => if w.id ≠ "" then some w.id else fallback_id current v
  | none => fallback_id current v

/-- Outcome of one follow-up step for one submitted VLAN definition:
skipped (flag not set), warned (no persisted record correlated, printed
as a warning and the loop continues) or attempted vid (the update call
is issued for that id). -/
inductive FollowupOutcome
  | skipped
  | warned
  | attempted (vid : String)
deriving DecidableEq

/-- The enable (PUT status provisioned) loop body for one definition. -/
def enable_step (current : List Vlan) (v : Vlan) : FollowupOutcome :=
  if !v.enabled then .skipped
  else
    match find_id_for current v with
    | none => .warned
    | some vid => .attempted vid

/-- The share-over-vpn (PATCH) loop body for one definition. -/
def share_step (current : List Vlan) (v : Vlan) : FollowupOutcome :=
  if !v.share_over_vpn then .skipped
  else
    match find_id_for current v with
    | none => .warned
    | some vid => .attempted vid

/-- Both follow-up loops of process_vlans_for_site: every submitted
definition receives an outcome for each step; nothing aborts the site. -/
def vlan_followups (current : List Vlan) (vlans : List Vlan) :
    List (FollowupOutcome × FollowupOutcome) :=
  vlans.map (fun v => (enable_step current v, share_step current v))

/- ------------------------------------------------------------------
   Template catalog resolution
   (TemplateResolver, bulk_create.py 235-257, and
   ensure_template_id_for_row, 259-272)
   ------------------------------------------------------------------ -/

/-- One catalog entry as far as resolution inspects it (an absent id is
encoded as the empty string). -/
structure TemplateEntry where
  name : String
  id : String
deriving DecidableEq

/-- The per-run state: how often the catalog endpoint was fetched, plus
the TemplateResolver cache (_loaded and _by_lower_name). -/
structure RunState where
  fetch_count : Nat
  loaded : Bool
  by_lower_name : List (String × List TemplateEntry)
deriving DecidableEq

/-- The state at the start of a run. -/
def init_run_state : RunState := ⟨0, false, []⟩

/-- get_json_v3_templates: one catalog fetch.  The catalog the backend
would serve is a parameter; each call counts as one fetch. -/
def get_templates_fetch (catalog : List TemplateEntry) (s : RunState) :
    List TemplateEntry × RunState :=
  (catalog, { s with fetch_count := s.fetch_count + 1 })

/-- Python d.setdefault(k, []).append(t) on the index model. -/
def assoc_append (ix : List (String × List TemplateEntry)) (k : String) (t : TemplateEntry) :
    List (String × List TemplateEntry) :=
  match ix with
  | [] => [(k, [t])]
  | (k0, l) :: rest => if k0 = k then (k0, l ++ [t]) :: rest else (k0, l) :: assoc_append rest k t

/-- The index built by TemplateResolver._load: entries with a non-empty
stripped name, grouped under the lower-cased name. -/
def build_index (items : List TemplateEntry) : List (String × List TemplateEntry) :=
  items.foldl (fun ix t =>
    let nm := pyStrip t.name
    if nm ≠ "" then assoc_append ix (pyLower nm) t else ix) []

/-- Python self._by_lower_name.get(k, []). -/
def assoc_get (ix : List (String × List TemplateEntry)) (k : String) : List TemplateEntry :=
  match ix with
  | [] => []
  | (k0, l) :: rest => if k0 = k then l else assoc_get rest k

/-- TemplateResolver._load: fetch and index the catalog once; later
calls return without fetching. -/
def resolver_load (catalog : List TemplateEntry) (s : RunState) : RunState :=
  if s.loaded then s
  else
    let fetched := get_templates_fetch catalog s
    { fetched.2 with loaded := true, by_lower_name := build_index fetched.1 }

/-- TemplateResolver.resolve: a concrete id only on exactly one
case-insensitive hit. -/
def resolver_resolve (catalog : List TemplateEntry) (name : String) (s : RunState) :
    Option String × RunState :=
  let s1 := resolver_load catalog s
  match assoc_get s1.by_lower_name (pyLower (pyStrip name)) with
  | [t] => (some t.id, s1)
  | _ => (none, s1)

/-- The failure branch of ensure_template_id_for_row: it calls
get_json_v3_templates() directly (not through the resolver cache) to
build the available-names hint. -/
def ensure_hint_branch (catalog : List TemplateEntry) (tname : String) (s : RunState) :
    (Bool × Option String × Option String) × RunState :=
  let fetched := get_templates_fetch catalog s
  let names := ((fetched.1.map (fun t => t.name)).filter (fun n => n ≠ "")).foldl insertOnce []
  ((false, none,
    some ("could not resolve template_id from template_name=" ++ tname ++
      ". Available names: " ++ join_comma_space names)), fetched.2)

/-- ensure_template_id_for_row over the template_id and template_name
fields of a sites.csv row.  The source sorts the hinted names; the model
keeps first-occurrence order, which no claim observes. -/
def ensure_template_id_for_row (catalog : List TemplateEntry)
    (template_id template_name : String) (s : RunState) :
    (Bool × Option String × Option String) × RunState :=
  let tid := pyStrip template_id
  if tid ≠ "" then ((true, some tid, none), s)
  else
    let tname := pyStrip template_name
    if tname = "" then ((false, none, some "missing template_id and template_name"), s)
    else
      let res := resolver_resolve catalog tname s
      match res.1 with
      | some rid =>
        if rid ≠ "" then ((true, some rid, none), res.2)
        else ensure_hint_branch catalog tname res.2
      | none => ensure_hint_branch catalog tname res.2

/- ------------------------------------------------------------------
   VLAN CSV loading and the v2 VLAN payload
   (_clean_bool / _split_dhcp / norm_dhcp_service, bulk_create.py
   275-289; _vlan_from_csv_row, 292-308; _network_base_from_start /
   _short_name / _maybe_dup_interface_for_ha / vlan_to_v2_payload,
   669-717)
   ------------------------------------------------------------------ -/

/-- _clean_bool: str(v).strip().lower() in ("1","true","yes","y"). -/
def clean_bool (v : String) : Bool :=
  decide (pyLower (pyStrip v) ∈ (["1", "true", "yes", "y"] : List String))

/-- _split_dhcp: a range only when both ends are present. -/
def split_dhcp (start stop : String) : Option String :=
  let s := pyStrip start
  let e := pyStrip stop
  if s = "" ∧ e = "" then none
  else if s ≠ "" ∧ e ≠ "" then some (s ++ "-" ++ e)
  else none

/-- Python s.replace("-", "_") for the single characters involved. -/
def dash_to_underscore (s : String) : String :=
  ⟨s.data.map (fun c => if c = '-' then '_' else c)⟩

/-- norm_dhcp_service. -/
def norm_dhcp_service (val : String) (has_range : Bool) : String :=
  let v := dash_to_underscore (pyLower (pyStrip val))
  if v = "on" then "inherit"
  else if v = "inherit" ∨ v = "non_airgapped" ∨ v = "no_dhcp" then v
  else if v = "off" then "no_dhcp"
  else if has_range then "inherit" else "no_dhcp"

/-- One raw row of a VLAN CSV as DictReader delivers it (absent columns
modelled as their row.get defaults). -/
structure VlanCsvRow where
  name : String := ""
  interface : String := ""
  subnet : String := ""
  tag : String := ""
  default_gateway : String := ""
  zone : String := ""
  enabled : String := "true"
  share_over_vpn : String := "false"
  dhcp_service : String := ""
  dhcp_start : String := ""
  dhcp_end : String := ""
deriving DecidableEq

/-- _vlan_from_csv_row: the VlanDefinition the CSV loader produces
(the absent dhcp_range key is encoded as the empty string). -/
def vlan_from_csv_row (r : VlanCsvRow) : Vlan :=
  let dhcp_range := split_dhcp r.dhcp_start r.dhcp_end
  { name := pyStrip r.name
    display_name := pyStrip r.name
    interface := pyStrip r.interface
    subnet := pyStrip r.subnet
    tag := pyStrip r.tag
    default_gateway := pyStrip r.default_gateway
    start_ip := pyStrip r.default_gateway
    zone := py_or (pyStrip r.zone) "LAN Zone"
    enabled := clean_bool r.enabled
    share_over_vpn := clean_bool r.share_over_vpn
    dhcp_service := norm_dhcp_service r.dhcp_service dhcp_range.isSome
    dhcp_range := dhcp_range.getD "" }

/-- Value of an all-digit character list. -/
def dec_nat (l : List Char) : Option Nat :=
  if l ≠ [] ∧ l.all (fun c => c.isDigit) then
    some (l.foldl (fun a c => a * 10 + digit_val c) 0)
  else none

/-- One dotted-quad octet (at most three digits, value at most 255). -/
def octet (l : List Char) : Option Nat :=
  match dec_nat l with
  | some n => if n ≤ 255 ∧ l.length ≤ 3 then some n else none
  | none => none

/-- Numeric value of a dotted-quad IPv4 address. -/
def ipv4_nat (s : String) : Option Nat :=
  match (split_chars '.' s.data).map octet with
  | [some a, some b, some c, some d] => some (((a * 256 + b) * 256 + c) * 256 + d)
  | _ => none

/-- Dotted-quad rendering of an IPv4 address value. -/
def format_ipv4 (n : Nat) : String :=
  toString (n / 16777216 % 256) ++ "." ++ toString (n / 65536 % 256) ++ "." ++
    toString (n / 256 % 256) ++ "." ++ toString (n % 256)

/-- _network_base_from_start: the network address of
ip_network(start/bits, strict=False) for dotted-quad IPv4 with a
prefix length; the dotted-netmask and IPv6 spellings the Python library
would also accept are not modelled (no claim touches this field). -/
def network_base_from_start (start_ip subnet_bits : String) : Option String :=
  let s := pyStrip start_ip
  let b := pyStrip subnet_bits
  if s = "" ∨ b = "" then none
  else
    match ipv4_nat s, dec_nat b.data with
    | some ip, some bits =>
      if bits ≤ 32 then some (format_ipv4 (ip - ip % 2 ^ (32 - bits))) else none
    | _, _ => none

/-- _short_name: strip, then keep at most maxlen characters. -/
def short_name (name : String) (maxlen : Nat) : String :=
  let n := pyStrip name
  if n.data.length ≤ maxlen then n else ⟨n.data.take maxlen⟩

/-- _maybe_dup_interface_for_ha. -/
def maybe_dup_interface_for_ha (interface gateways_str : String) : String :=
  if ',' ∈ gateways_str.data then
    if interface ≠ "" ∧ ',' ∉ interface.data then interface ++ "," ++ interface
    else interface
  else interface

/-- The v2 VLAN creation payload. -/
structure V2Payload where
  subnet : String
  tag : String
  display_name : String
  ip_range : String
  zone : String
  per_network_dns : String
  dns_forwarding : Bool
  dhcp_range : String
  slash30_range : String
  airgap_plus_mask : Int
  default_gateway : String
  gateways : String
  interface : String
  name : String
  cluster_id : Int
  event_type : String
  dhcp_service : String
  share_over_vpn : Bool
  enabled : Bool
deriving DecidableEq

/-- vlan_to_v2_payload. -/
def vlan_to_v2_payload (vlan : Vlan) (gateways_str : String) (cluster_id : Int)
    (per_network_dns : String) : V2Payload :=
  let start_ip := py_or vlan.start_ip vlan.default_gateway
  let subnet := pyStrip vlan.subnet
  let ip_range := py_or ((network_base_from_start start_ip subnet).getD "") vlan.ip_range
  let display := py_or vlan.display_name vlan.name
  let safe_name := short_name (py_or vlan.name display) 16
  let interface := maybe_dup_interface_for_ha vlan.interface gateways_str
  { subnet := subnet
    tag := pyStrip vlan.tag
    display_name := display
    ip_range := ip_range
    zone := py_or vlan.zone "LAN Zone"
    per_network_dns := pyStrip per_network_dns
    dns_forwarding := false
    dhcp_range := vlan.dhcp_range
    slash30_range := ""
    airgap_plus_mask := 30
    default_gateway := start_ip
    gateways := gateways_str
    interface := interface
    name := safe_name
    cluster_id := cluster_id
    event_type := "addnetwork"
    dhcp_service := norm_dhcp_service vlan.dhcp_service (vlan.dhcp_range ≠ "")
    share_over_vpn := vlan.share_over_vpn
    enabled := vlan.enabled }

/- ------------------------------------------------------------------
   Concrete inputs used to exercise the theorems below
   ------------------------------------------------------------------ -/

/-- An HA pair where both peers report the same lan set. -/
def c1demo_items : List GwIfaces :=
  [⟨"gwa", [⟨"ge1", "management"⟩, ⟨"ge3", "lan"⟩, ⟨"ge5", "lan"⟩, ⟨"ge6", "lan"⟩, ⟨"ge7", "ha"⟩]⟩,
   ⟨"gwb", [⟨"ge3", "lan"⟩, ⟨"ge5", "lan"⟩, ⟨"ge7", "ha"⟩]⟩]

/-- An HA pair whose peers report only their ha link: no trackables. -/
def c2demo_items : List GwIfaces :=
  [⟨"gwa", [⟨"ge7", "ha"⟩]⟩, ⟨"gwb", [⟨"ge7", "ha"⟩]⟩]

/-- A site row declaring one WAN interface. -/
def c2demo_row : SiteRowCsv := { wan_interface_name := "ge3" }

/-- Peer gwb reports no ha-typed interface. -/
def c3demo_items : List GwIfaces :=
  [⟨"gwa", [⟨"ge7", "ha"⟩, ⟨"ge3", "lan"⟩]⟩, ⟨"gwb", [⟨"ge3", "lan"⟩]⟩]

/-- A site row with neither link override nor WAN hints. -/
def c3demo_row : SiteRowCsv := { wan_interface_name := "ge3" }

/-- A non-empty vrrp_link_interface that is nothing but a VLAN
sub-interface suffix: it strips to the empty string. -/
def c4demo_row : SiteRowCsv := { vrrp_link_interface := ".100", wan_interface_name := "ge3" }

/-- Both peers report an ha link plus identical wan and lan names. -/
def c4demo_items : List GwIfaces :=
  [⟨"gwa", [⟨"ge9", "ha"⟩, ⟨"ge3", "wan"⟩, ⟨"ge5", "lan"⟩]⟩,
   ⟨"gwb", [⟨"ge9", "ha"⟩, ⟨"ge3", "wan"⟩, ⟨"ge5", "lan"⟩]⟩]

/-- An override naming a sub-interface of ge3, which discovery also
reports as a wan interface on every peer. -/
def c4demo_row2 : SiteRowCsv := { vrrp_link_interface := "GE3.100", wan_interface_name := "ge3" }

/-- One VLAN riding on interface ge5. -/
def c4demo_vlans : List Vlan := [{ interface := "ge5" }]

/-- The payload the builder emits for c4demo_row2 over c4demo_items. -/
def c4demo_payload : VrrpPayload :=
  { virtual_router_id := "16"
    advert_int := 10
    priority := 254
    vip := "0.0.0.0"
    authentication_password := ""
    track_interface := [("gwa", "ge5"), ("gwb", "ge5")]
    vrrp_interface := [("gwa", "ge3"), ("gwb", "ge3")] }

/-- A transport whose old token is rejected and whose refreshed token is
accepted. -/
def c6_send : String → HttpResponse :=
  fun b => if b = "tok-old" then ⟨401, "unauthorized"⟩ else ⟨200, "ok"⟩

/-- A site lookup that misses on the first poll and then returns two
gateway ids and no cluster info. -/
def c7_find : Nat → Option SiteRow :=
  fun i => if i = 0 then none else some ⟨["gwa", "gwb"], none⟩

/-- Two persisted VLAN records with ids. -/
def c8demo_current : List Vlan :=
  [{ name := "corp", display_name := "Corp", tag := "10", interface := "ge5",
     default_gateway := "10.0.0.1", id := "idA" },
   { name := "guest", display_name := "Guest", tag := "20", interface := "ge5",
     default_gateway := "10.0.1.1", id := "idB" }]

/-- A submitted definition matching the first record on the composite
key up to case and whitespace. -/
def c8demo_vlan : Vlan :=
  { name := "Corp", display_name := "Corp", tag := "10", interface := "GE5 ",
    default_gateway := "10.0.0.1" }

/-- A submitted definition matching nothing that was persisted. -/
def c8demo_vlan2 : Vlan := { name := "iot", tag := "30", enabled := true, share_over_vpn := true }

/-- A two-entry template catalog. -/
def c9demo_catalog : List TemplateEntry := [⟨"Branch-Std", "tpl-1"⟩, ⟨"DC-Core", "tpl-2"⟩]

/- ------------------------------------------------------------------
   Lemmas about the interface-discovery fold
   ------------------------------------------------------------------ -/

/-- The update the inner loop applies to the per-gateway trackable set,
in isolation. -/
def track_only_step (tr : List String) (itf : IfaceRec) : List String :=
  let name := clean_iface itf.name
  if name = "" then tr
  else
    let itype := clean_iface itf.interface_type
    if itype = "lan" ∨ itype = "wan" then insertOnce tr name else tr

theorem iface_step_track (g : String) (acc : IfaceAcc) (itf : IfaceRec) :
    (iface_step g acc itf).track = track_only_step acc.track itf := by
  simp only [iface_step, track_only_step]
  by_cases h1 : clean_iface itf.name = ""
  · simp [h1]
  · by_cases h2 : clean_iface itf.interface_type = "ha"
    · simp [h1, h2]
    · by_cases h3 : clean_iface itf.interface_type = "management"
      · simp [h1, h2, h3]
      · by_cases h4 : clean_iface itf.interface_type = "lan" ∨ clean_iface itf.interface_type = "wan"
        · simp [h1, h2, h3, h4]
        · simp [h1, h2, h3, h4]

theorem foldl_iface_track (itfs : List IfaceRec) (g : String) (acc : IfaceAcc) :
    (itfs.foldl (iface_step g) acc).track = itfs.foldl track_only_step acc.track := by
  induction itfs generalizing acc with
  | nil => rfl
  | cons itf rest ih =>
    simp only [List.foldl_cons]
    rw [ih, iface_step_track]

theorem gw_trackables_eq_fold (gw : GwIfaces) :
    gw_trackables gw = gw.interfaces.foldl track_only_step [] := by
  unfold gw_trackables
  exact foldl_iface_track _ _ _

theorem discover_fold_per_gw (gwSet : List String) (items : List GwIfaces) (acc : DiscAcc) :
    (items.foldl (process_gw gwSet) acc).per_gw
      = acc.per_gw ++ (items.filter (gw_matches gwSet)).map gw_trackables := by
  induction items generalizing acc with
  | nil => simp
  | cons gw rest ih =>
    simp only [List.foldl_cons, List.filter_cons]
    cases hm : gw_matches gwSet gw with
    | false =>
      simp only [Bool.false_eq_true, if_false]
      rw [show process_gw gwSet acc gw = acc from by simp [process_gw, hm]]
      exact ih acc
    | true =>
      simp only [if_true]
      have hstep : process_gw gwSet acc gw =
          ⟨(gw.interfaces.foldl (iface_step gw.gateway_id) ⟨acc.ha, acc.mgmt, []⟩).ha,
           (gw.interfaces.foldl (iface_step gw.gateway_id) ⟨acc.ha, acc.mgmt, []⟩).mgmt,
           acc.per_gw ++ [(gw.interfaces.foldl (iface_step gw.gateway_id) ⟨acc.ha, acc.mgmt, []⟩).track]⟩ := by
        simp [process_gw, hm]
      rw [hstep, ih]
      have htr : (gw.interfaces.foldl (iface_step gw.gateway_id) ⟨acc.ha, acc.mgmt, []⟩).track
          = gw_trackables gw := by
        rw [foldl_iface_track, gw_trackables_eq_fold]
      simp [htr, List.append_assoc]

theorem discover_fold_no_match (gwSet : List String) (items : List GwIfaces) (acc : DiscAcc)
    (hnm : items.filter (gw_matches gwSet) = []) :
    items.foldl (process_gw gwSet) acc = acc := by
  induction items generalizing acc with
  | nil => rfl
  | cons gw rest ih =>
    simp only [List.filter_cons] at hnm
    cases hm : gw_matches gwSet gw with
    | true => simp [hm] at hnm
    | false =>
      rw [hm] at hnm
      simp only [Bool.false_eq_true, if_false] at hnm
      simp only [List.foldl_cons]
      rw [show process_gw gwSet acc gw = acc from by simp [process_gw, hm]]
      exact ih acc hnm

theorem foldl_inter_mem (t : List (List String)) (init : List String) (x : String) :
    x ∈ t.foldl (fun acc s => acc.filter (fun y => y ∈ s)) init ↔
      x ∈ init ∧ ∀ s ∈ t, x ∈ s := by
  induction t generalizing init with
  | nil => simp
  | cons s rest ih =>
    simp only [List.foldl_cons]
    rw [ih]
    simp only [List.mem_filter, decide_eq_true_eq, List.forall_mem_cons]
    tauto

/-- Claim C1: for every interface-discovery result over a site's
requested gateway set, common_trackables is the set intersection of the
matching gateways' lan/wan interface-name sets; if any matching gateway
reports no lan/wan interfaces the intersection is empty; and if no
gateway of the response matches the requested set the whole snapshot
(ha_link_map, mgmt_names, common_trackables) is empty rather than an
error. -/
theorem c1_common_trackables_intersection (items : List GwIfaces) (gateways_str : String) :
    (items.filter (gw_matches (gw_id_list gateways_str)) ≠ [] →
      ∀ x, x ∈ (discover_iface_inventory items gateways_str).2.2 ↔
        ∀ gw ∈ items.filter (gw_matches (gw_id_list gateways_str)), x ∈ gw_trackables gw)
    ∧ ((∃ gw ∈ items.filter (gw_matches (gw_id_list gateways_str)), gw_trackables gw = []) →
        (discover_iface_inventory items gateways_str).2.2 = [])
    ∧ (items.filter (gw_matches (gw_id_list gateways_str)) = [] →
        discover_iface_inventory items gateways_str = ([], [], [])) := by
  have hper : (discover_fold items (gw_id_list gateways_str)).per_gw
      = (items.filter (gw_matches (gw_id_list gateways_str))).map gw_trackables := by
    unfold discover_fold
    rw [discover_fold_per_gw]
    simp
  have hcommon : (discover_iface_inventory items gateways_str).2.2
      = inter_all ((items.filter (gw_matches (gw_id_list gateways_str))).map gw_trackables) := by
    show inter_all (discover_fold items (gw_id_list gateways_str)).per_gw = _
    rw [hper]
  have hmain : items.filter (gw_matches (gw_id_list gateways_str)) ≠ [] →
      ∀ x, x ∈ (discover_iface_inventory items gateways_str).2.2 ↔
        ∀ gw ∈ items.filter (gw_matches (gw_id_list gateways_str)), x ∈ gw_trackables gw := by
    intro hne x
    rw [hcommon]
    cases hm : items.filter (gw_matches (gw_id_list gateways_str)) with
    | nil => exact absurd hm hne
    | cons g0 grest =>
      simp only [List.map_cons]
      unfold inter_all
      rw [foldl_inter_mem]
      simp only [List.forall_mem_cons, List.mem_map]
      constructor
      · rintro ⟨h0, hrest⟩
        exact ⟨h0, fun gw hgw => hrest _ ⟨gw, hgw, rfl⟩⟩
      · rintro ⟨h0, hrest⟩
        exact ⟨h0, by rintro s ⟨gw, hgw, rfl⟩; exact hrest gw hgw⟩
  refine ⟨hmain, ?_, ?_⟩
  · rintro ⟨gw, hgw, hempty⟩
    have hne : items.filter (gw_matches (gw_id_list gateways_str)) ≠ [] := by
      intro h; rw [h] at hgw; exact absurd hgw (List.not_mem_nil gw)
    rw [List.eq_nil_iff_forall_not_mem]
    intro x hx
    have := (hmain hne x).mp hx gw hgw
    rw [hempty] at this
    exact absurd this (List.not_mem_nil x)
  · intro hm
    have hfold : discover_fold items (gw_id_list gateways_str) = ⟨[], [], []⟩ :=
      discover_fold_no_match (gw_id_list gateways_str) items ⟨[], [], []⟩ hm
    show (let acc := discover_fold items (gw_id_list gateways_str);
      (acc.ha, acc.mgmt, inter_all acc.per_gw)) = ([], [], [])
    rw [hfold]
    rfl

/-- Witness for C1 at a concrete HA pair: both gateways match the
requested set and the intersection membership characterization holds. -/
theorem c1_witness :
    c1demo_items.filter (gw_matches (gw_id_list "gwa,gwb")) ≠ []
    ∧ ("ge3" ∈ (discover_iface_inventory c1demo_items "gwa,gwb").2.2 ↔
        ∀ gw ∈ c1demo_items.filter (gw_matches (gw_id_list "gwa,gwb")),
          "ge3" ∈ gw_trackables gw) := by
  refine ⟨by decide, ?_⟩
  exact (c1_common_trackables_intersection c1demo_items "gwa,gwb").1 (by decide) "ge3"

/- ------------------------------------------------------------------
   Lemmas about the VRRP builder
   ------------------------------------------------------------------ -/

theorem extras_fold_not_mem (common mgmt : List String) (lx : String) (extras : List String)
    (acc : List String) (h : lx ∉ acc) :
    lx ∉ extras.foldl
      (fun tf e => if e ∈ common ∧ e ∉ mgmt ∧ e ≠ lx ∧ e ∉ tf then tf ++ [e] else tf) acc := by
  induction extras generalizing acc with
  | nil => exact h
  | cons e rest ih =>
    simp only [List.foldl_cons]
    apply ih
    by_cases hc : e ∈ common ∧ e ∉ mgmt ∧ e ≠ lx ∧ e ∉ acc
    · rw [if_pos hc]
      intro hmem
      rcases List.mem_append.mp hmem with h1 | h1
      · exact h h1
      · rw [List.mem_singleton] at h1
        exact hc.2.2.1 h1.symm
    · rw [if_neg hc]
      exact h

theorem link_excluded_from_final (items : List GwIfaces) (gws : String) (row : SiteRowCsv)
    (vlans : List Vlan) :
    link_exclude_of items gws row ∉ final_track_list items gws row vlans := by
  simp only [final_track_list]
  apply extras_fold_not_mem
  intro hmem
  have h1 := (List.mem_filter.mp hmem).1
  have h2 := (List.mem_filter.mp h1).2
  simp only [decide_eq_true_eq] at h2
  exact h2.2.2.2 rfl

/-- Claim C2: for every HA build, if the final track-interface list
(after dropping management names, dropping the chosen link interface,
intersecting with common_trackables and merging the filtered CSV
extras) is empty, build_vrrp_payload raises instead of returning a
payload; dually, a successful payload always carries the non-empty
final list. -/
theorem c2_empty_track_list_fails (items : List GwIfaces) (gws : String) (row : SiteRowCsv)
    (vlans : List Vlan) (vrid : String) :
    (',' ∈ gws.data → final_track_list items gws row vlans = [] →
      ∃ msg, build_vrrp_payload items gws row vlans vrid = Except.error msg)
    ∧ (∀ p l tv, build_vrrp_payload items gws row vlans vrid = Except.ok (some (p, l, tv)) →
        final_track_list items gws row vlans ≠ []
        ∧ tv = join_comma (final_track_list items gws row vlans)) := by
  constructor
  · intro hHA hempty
    simp only [build_vrrp_payload, if_neg (not_not_intro hHA)]
    rw [if_pos hempty]
    split
    · exact ⟨_, rfl⟩
    · exact ⟨_, rfl⟩
  · intro p l tv h
    by_cases hHA : ',' ∈ gws.data
    · simp only [build_vrrp_payload, if_neg (not_not_intro hHA)] at h
      split at h
      · cases h
      · split at h
        · cases h
        · rename_i hne
          simp only [Except.ok.injEq, Option.some.injEq, Prod.mk.injEq] at h
          exact ⟨hne, h.2.2.symm⟩
    · simp only [build_vrrp_payload, if_pos hHA] at h
      cases h

/-- Witness for C2: an HA pair whose peers report only their HA link,
so the validated track list is empty and the build errors out. -/
theorem c2_witness :
    ',' ∈ ("gwa,gwb" : String).data
    ∧ final_track_list c2demo_items "gwa,gwb" c2demo_row [] = []
    ∧ ∃ msg, build_vrrp_payload c2demo_items "gwa,gwb" c2demo_row [] "16" = Except.error msg := by
  refine ⟨by decide, by decide, ?_⟩
  exact (c2_empty_track_list_fails c2demo_items "gwa,gwb" c2demo_row [] "16").1
    (by decide) (by decide)

/-- Claim C3 (amended): for every HA build with no effective CSV link
override, if any requested gateway id lacks a discovered ha interface,
build_vrrp_payload fails loudly with the fixed corrective message
(advising a CSV override) -- the message does not name the missing
peer. -/
theorem c3_missing_ha_link_fails (items : List GwIfaces) (gws : String) (row : SiteRowCsv)
    (vlans : List Vlan) (vrid : String)
    (hHA : ',' ∈ gws.data)
    (hNoOv : csv_link_of row = "")
    (hMissing : ((gw_id_list gws).filter
        (fun k => (assoc_lookup (discover_iface_inventory items gws).1 k).getD "" = "")) ≠ []) :
    build_vrrp_payload items gws row vlans vrid = Except.error ha_link_missing_msg := by
  simp only [build_vrrp_payload, if_neg (not_not_intro hHA)]
  rw [if_pos ⟨hNoOv, hMissing⟩]

/-- Counterexample for C3 as stated: peer gwb has no discovered ha
interface and is the (unique) missing peer, the build fails, but the
corrective message does not contain the missing peer's id anywhere. -/
theorem c3_counterexample :
    build_vrrp_payload c3demo_items "gwa,gwb" c3demo_row [] "16"
      = Except.error ha_link_missing_msg
    ∧ ((gw_id_list "gwa,gwb").filter
        (fun k => (assoc_lookup (discover_iface_inventory c3demo_items "gwa,gwb").1 k).getD ""
          = "")) = ["gwb"]
    ∧ has_sub ha_link_missing_msg.data ("gwb" : String).data = false := by
  refine ⟨?_, by decide, by decide⟩
  exact c3_missing_ha_link_fails c3demo_items "gwa,gwb" c3demo_row [] "16"
    (by decide) (by decide) (by decide)

/-- Witness for C3 (amended) at the same concrete input, reached
through the amended theorem with every hypothesis discharged by
evaluation. -/
theorem c3_witness :
    ',' ∈ ("gwa,gwb" : String).data
    ∧ csv_link_of c3demo_row = ""
    ∧ build_vrrp_payload c3demo_items "gwa,gwb" c3demo_row [{ interface := "ge3" }] "7"
      = Except.error ha_link_missing_msg := by
  refine ⟨by decide, by decide, ?_⟩
  exact c3_missing_ha_link_fails c3demo_items "gwa,gwb" c3demo_row [{ interface := "ge3" }] "7"
    (by decide) (by decide) (by decide)

/-- Claim C4 (amended): for every HA build whose CSV link override is
still non-empty after stripping the VLAN sub-interface suffix, the
stripped override is the link interface of every peer in the emitted
vrrp_interface map, it is reported as the link used, and it never
appears in the final track-interface list, even when discovery reports
it as lan/wan on every peer. -/
theorem c4_override_wins (items : List GwIfaces) (gws : String) (row : SiteRowCsv)
    (vlans : List Vlan) (vrid : String)
    (hOv : csv_link_of row ≠ "") :
    csv_link_of row ∉ final_track_list items gws row vlans
    ∧ (∀ p l tv, build_vrrp_payload items gws row vlans vrid = Except.ok (some (p, l, tv)) →
        p.vrrp_interface = (gw_id_list gws).map (fun k => (k, csv_link_of row))
        ∧ l = csv_link_of row) := by
  constructor
  · have hlx : link_exclude_of items gws row = csv_link_of row := by
      unfold link_exclude_of
      rw [if_pos hOv]
    rw [← hlx]
    exact link_excluded_from_final items gws row vlans
  · intro p l tv h
    by_cases hHA : ',' ∈ gws.data
    · have hcond : ¬(csv_link_of row = "" ∧
          ((gw_id_list gws).filter
            (fun k => (assoc_lookup (discover_iface_inventory items gws).1 k).getD "" = ""))
            ≠ []) := fun hand => hOv hand.1
      simp only [build_vrrp_payload, if_neg (not_not_intro hHA), if_neg hcond,
        if_pos hOv] at h
      split at h
      · cases h
      · simp only [Except.ok.injEq, Option.some.injEq, Prod.mk.injEq] at h
        refine ⟨?_, h.2.1.symm⟩
        rw [← h.1]
    · simp only [build_vrrp_payload, if_pos hHA] at h
      cases h

/-- Counterexample for C4 as stated: the CSV field vrrp_link_interface
is the non-empty string ".100", but the emitted vrrp_interface map does
not carry the (suffix-stripped) override for the peers -- the build fell
back to the discovered ha links instead. -/
theorem c4_counterexample :
    c4demo_row.vrrp_link_interface ≠ ""
    ∧ ((match build_vrrp_payload c4demo_items "gwa,gwb" c4demo_row [] "16" with
        | Except.ok (some (p, _, _)) =>
          p.vrrp_interface.all (fun q => q.2 = csv_link_of c4demo_row)
        | _ => true) = false) := by
  exact ⟨by decide, by decide⟩

/-- Witness for C4 (amended): the override ge3.100 strips to ge3, which
discovery reports as a wan interface on both peers; the emitted map
still carries ge3 for every peer and ge3 is absent from the track
list. -/
theorem c4_witness :
    csv_link_of c4demo_row2 = "ge3"
    ∧ "ge3" ∈ (discover_iface_inventory c4demo_items "gwa,gwb").2.2
    ∧ "ge3" ∉ final_track_list c4demo_items "gwa,gwb" c4demo_row2 c4demo_vlans
    ∧ c4demo_payload.vrrp_interface = (gw_id_list "gwa,gwb").map (fun k => (k, "ge3")) := by
  have hc : csv_link_of c4demo_row2 = "ge3" := by decide
  obtain ⟨hni, hall⟩ :=
    c4_override_wins c4demo_items "gwa,gwb" c4demo_row2 c4demo_vlans "16" (by decide)
  have hb : build_vrrp_payload c4demo_items "gwa,gwb" c4demo_row2 c4demo_vlans "16"
      = Except.ok (some (c4demo_payload, "ge3", "ge5")) := by rfl
  obtain ⟨hmap, -⟩ := hall c4demo_payload "ge3" "ge5" hb
  refine ⟨hc, by decide, ?_, ?_⟩
  · rw [← hc]
    exact hni
  · rw [hmap, hc]

/-- Claim C5: for every virtual-router-id input string, the vrid
sanitization never raises: a parseable integer is clamped into
[1, 255] (below 1 becomes 1, above 255 becomes 255, in-range values
pass through), any parse failure yields the default "16", and the
result always renders an integer in [1, 255]. -/
theorem c5_vrid_clamp_or_default (s : String) :
    (∀ n : Int, py_int_of_string (pyStrip s) = some n →
      sanitize_vrid s = toString (max 1 (min 255 n))
      ∧ (n < 1 → sanitize_vrid s = "1")
      ∧ (255 < n → sanitize_vrid s = "255")
      ∧ (1 ≤ n → n ≤ 255 → sanitize_vrid s = toString n))
    ∧ (py_int_of_string (pyStrip s) = none → sanitize_vrid s = "16")
    ∧ (∃ m : Int, sanitize_vrid s = toString m ∧ 1 ≤ m ∧ m ≤ 255) := by
  refine ⟨?_, ?_, ?_⟩
  · intro n h
    have hs : sanitize_vrid s = toString (max 1 (min 255 n)) := by
      unfold sanitize_vrid
      rw [h]
    refine ⟨hs, ?_, ?_, ?_⟩
    · intro hlt
      rw [hs, min_eq_right (by omega : n ≤ (255 : Int)),
        max_eq_left (by omega : n ≤ (1 : Int))]
      decide
    · intro hgt
      rw [hs, min_eq_left (by omega : (255 : Int) ≤ n),
        max_eq_right (by norm_num : (1 : Int) ≤ 255)]
      decide
    · intro h1 h2
      rw [hs, min_eq_right h2, max_eq_right h1]
  · intro h
    unfold sanitize_vrid
    rw [h]
  · cases hp : py_int_of_string (pyStrip s) with
    | some n =>
      refine ⟨max 1 (min 255 n), ?_, ?_, ?_⟩
      · unfold sanitize_vrid
        rw [hp]
      · exact le_max_left 1 _
      · exact max_le (by norm_num) (min_le_left _ _)
    | none =>
      refine ⟨16, ?_, ?_, ?_⟩
      · unfold sanitize_vrid
        rw [hp]
        decide
      · decide
      · decide

/-- Witness for C5: an over-range value clamps to 255 and a
non-numeric value defaults to 16. -/
theorem c5_witness :
    sanitize_vrid " 300 " = "255" ∧ sanitize_vrid "ge5" = "16" := by
  constructor
  · exact ((c5_vrid_clamp_or_default " 300 ").1 300 (by decide)).2.2.1 (by decide)
  · exact (c5_vrid_clamp_or_default "ge5").2.1 (by decide)

/-- Claim C6: for every call through the central request wrapper, a 401
response triggers exactly one token refresh and exactly one retry of
the same call with the new token; any non-401 response is returned
unchanged with no refresh; and when the refresh itself fails, the
original 401 response is returned with no retry. -/
theorem c6_single_refresh_single_retry (send : String → HttpResponse)
    (refresh_result : Option String) (bearer : String) :
    ((send bearer).status ≠ 401 →
      request_with_auto_refresh send refresh_result bearer = ⟨send bearer, bearer, 0, 1⟩)
    ∧ (∀ nb, (send bearer).status = 401 → refresh_result = some nb →
      request_with_auto_refresh send refresh_result bearer = ⟨send nb, nb, 1, 2⟩)
    ∧ ((send bearer).status = 401 → refresh_result = none →
      request_with_auto_refresh send refresh_result bearer = ⟨send bearer, bearer, 1, 1⟩) := by
  refine ⟨?_, ?_, ?_⟩
  · intro h
    unfold request_with_auto_refresh
    rw [if_neg h]
  · intro nb h hr
    unfold request_with_auto_refresh
    rw [if_pos h, hr]
  · intro h hr
    unfold request_with_auto_refresh
    rw [if_pos h, hr]

/-- Witness for C6: a rejected token is refreshed and retried once with
the new token; a failed refresh returns the original 401. -/
theorem c6_witness :
    request_with_auto_refresh c6_send (some "tok-new") "tok-old"
      = ⟨⟨200, "ok"⟩, "tok-new", 1, 2⟩
    ∧ request_with_auto_refresh c6_send none "tok-old"
      = ⟨⟨401, "unauthorized"⟩, "tok-old", 1, 1⟩ := by
  constructor
  · have h := (c6_single_refresh_single_retry c6_send (some "tok-new") "tok-old").2.1
      "tok-new" (by decide) rfl
    exact h.trans (by decide)
  · have h := (c6_single_refresh_single_retry c6_send none "tok-old").2.2 (by decide) rfl
    exact h.trans (by decide)

/- ------------------------------------------------------------------
   Lemmas about the polling resolver
   ------------------------------------------------------------------ -/

theorem opt_truthy_some (o : Option Int) (h : opt_truthy o = true) :
    ∃ n, o = some n ∧ n ≠ 0 := by
  cases o with
  | none => simp [opt_truthy] at h
  | some n =>
    refine ⟨n, rfl, ?_⟩
    simpa [opt_truthy] using h

theorem cl_of_truthy (wanted : Option Int) (found : Option SiteRow)
    (hwf : opt_truthy wanted = false)
    (hc : opt_truthy (cl_of wanted found) = true) :
    ∃ row, found = some row ∧ cl_of wanted found = row.cluster_id
      ∧ opt_truthy row.cluster_id = true := by
  cases found with
  | none =>
    exfalso
    rw [show cl_of wanted none = wanted from rfl, hwf] at hc
    cases hc
  | some row =>
    cases hrc : opt_truthy row.cluster_id
    · exfalso
      have hcl : cl_of wanted (some row) = wanted := by
        simp [cl_of, hwf, hrc]
      rw [hcl, hwf] at hc
      cases hc
    · refine ⟨row, rfl, ?_, hrc⟩
      simp [cl_of, hwf, hrc]

theorem resolve_go_spec (find : Nat → Option SiteRow) (wanted : Option Int) :
    ∀ fuel i : Nat,
      (∀ s, (resolve_go find wanted fuel i).1 = some s →
        s ≠ ""
        ∧ ∃ j, i ≤ j ∧ j < i + fuel ∧ (find j).bind gw_ids_str_of = some s
          ∧ (if opt_truthy wanted then (resolve_go find wanted fuel i).2 = wanted
             else ∃ row, find j = some row
               ∧ (resolve_go find wanted fuel i).2 = row.cluster_id
               ∧ opt_truthy row.cluster_id = true))
      ∧ ((resolve_go find wanted fuel i).1 = none →
        (resolve_go find wanted fuel i).2 = (if opt_truthy wanted then wanted else none)) := by
  intro fuel
  induction fuel with
  | zero =>
    intro i
    constructor
    · intro s hs
      simp [resolve_go] at hs
    · intro _
      simp [resolve_go]
  | succ fuel ih =>
    intro i
    by_cases h1 : (opt_truthy wanted && str_opt_truthy ((find i).bind gw_ids_str_of)) = true
    · have hres : resolve_go find wanted (fuel + 1) i = ((find i).bind gw_ids_str_of, wanted) := by
        rw [resolve_go]
        rw [if_pos h1]
      rw [Bool.and_eq_true] at h1
      obtain ⟨hw, hg⟩ := h1
      rw [hres]
      constructor
      · intro s hs
        dsimp only at hs
        constructor
        · rw [hs] at hg
          simpa [str_opt_truthy] using hg
        · refine ⟨i, le_refl i, by omega, hs, ?_⟩
          rw [if_pos hw]
      · intro hn
        dsimp only at hn
        rw [hn] at hg
        simp [str_opt_truthy] at hg
    · by_cases h2 : (str_opt_truthy ((find i).bind gw_ids_str_of)
          && opt_truthy (cl_of wanted (find i))) = true
      · have hres : resolve_go find wanted (fuel + 1) i
            = ((find i).bind gw_ids_str_of, cl_of wanted (find i)) := by
          rw [resolve_go]
          rw [if_neg h1, if_pos h2]
        rw [Bool.and_eq_true] at h2
        obtain ⟨hg, hc⟩ := h2
        have hwf : opt_truthy wanted = false := by
          cases hw : opt_truthy wanted
          · rfl
          · exfalso
            exact h1 (by rw [Bool.and_eq_true]; exact ⟨hw, hg⟩)
        rw [hres]
        constructor
        · intro s hs
          dsimp only at hs
          constructor
          · rw [hs] at hg
            simpa [str_opt_truthy] using hg
          · refine ⟨i, le_refl i, by omega, hs, ?_⟩
            rw [if_neg (by simp [hwf])]
            exact cl_of_truthy wanted (find i) hwf hc
        · intro hn
          dsimp only at hn
          rw [hn] at hg
          simp [str_opt_truthy] at hg
      · have hres : resolve_go find wanted (fuel + 1) i = resolve_go find wanted fuel (i + 1) := by
          rw [resolve_go]
          rw [if_neg h1, if_neg h2]
        rw [hres]
        obtain ⟨ihr, ihn⟩ := ih (i + 1)
        constructor
        · intro s hs
          obtain ⟨hne, j, hj1, hj2, hjf, hrest⟩ := ihr s hs
          exact ⟨hne, j, by omega, by omega, hjf, hrest⟩
        · exact ihn

/-- Claim C7: resolve_gateway_ids_and_cluster returns a ready pair only
when a non-empty comma-joined gateway-id string was observed within the
polling attempts, alongside a truthy cluster id (echoing a truthy
caller hint back); on exhausting all attempts it returns gateway ids
None with only the prior hint (or None) as the cluster id: both fields
are present together, or the handle is not ready. -/
theorem c7_resolver_ready_or_not (find : Nat → Option SiteRow) (prefer : Option Int)
    (retries : Nat) :
    (∀ s, (resolve_gateway_ids_and_cluster find prefer retries).1 = some s →
      s ≠ ""
      ∧ (∃ c, (resolve_gateway_ids_and_cluster find prefer retries).2 = some c ∧ c ≠ 0)
      ∧ ∃ j, j < max 1 retries ∧ (find j).bind gw_ids_str_of = some s
        ∧ (opt_truthy prefer = true →
            (resolve_gateway_ids_and_cluster find prefer retries).2 = prefer))
    ∧ ((resolve_gateway_ids_and_cluster find prefer retries).1 = none →
      (resolve_gateway_ids_and_cluster find prefer retries).2
        = (if opt_truthy prefer then prefer else none)) := by
  have hunfold : resolve_gateway_ids_and_cluster find prefer retries
      = resolve_go find prefer (max 1 retries) 0 := rfl
  rw [hunfold]
  obtain ⟨hready, hnone⟩ := resolve_go_spec find prefer (max 1 retries) 0
  constructor
  · intro s hs
    obtain ⟨hne, j, hj0, hjlt, hjf, hrest⟩ := hready s hs
    refine ⟨hne, ?_, j, by simpa using hjlt, hjf, ?_⟩
    · by_cases hw : opt_truthy prefer = true
      · rw [if_pos hw] at hrest
        rw [hrest]
        exact opt_truthy_some prefer hw
      · rw [if_neg hw] at hrest
        obtain ⟨row, -, hcl, hrc⟩ := hrest
        rw [hcl]
        exact opt_truthy_some row.cluster_id hrc
    · intro hw
      rw [if_pos hw] at hrest
      exact hrest
  · exact hnone

/-- Witness for C7: the site is invisible on the first poll and ready
on the second; the resolver returns both gateway ids and the echoed
cluster hint. -/
theorem c7_witness :
    resolve_gateway_ids_and_cluster c7_find (some 7) 3 = (some "gwa,gwb", some 7)
    ∧ ("gwa,gwb" ≠ ""
      ∧ ∃ j, j < max 1 3 ∧ (c7_find j).bind gw_ids_str_of = some "gwa,gwb") := by
  refine ⟨by decide, ?_⟩
  obtain ⟨hne, -, j, hj, hjf, -⟩ :=
    (c7_resolver_ready_or_not c7_find (some 7) 3).1 "gwa,gwb" (by decide)
  exact ⟨hne, j, hj, hjf⟩

/-- Claim C8: post-submission correlation first matches a persisted
record by the composite key (the dict keeps the last record per key and
a keyed hit must carry an id), falls back to the relaxed
(lower-cased name, tag) scan otherwise, and a definition with no match
under either key yields only a warning outcome for the enable and
share-over-VPN follow-up steps -- every definition still receives an
outcome, so the site never hard-fails there. -/
theorem c8_vlan_correlation (current vlans : List Vlan) (v : Vlan) :
    (∀ w, current.reverse.find? (fun w0 => vlan_key w0 = vlan_key v) = some w → w.id ≠ "" →
      find_id_for current v = some w.id)
    ∧ ((current.reverse.find? (fun w0 => vlan_key w0 = vlan_key v) = none
        ∨ ∃ w, current.reverse.find? (fun w0 => vlan_key w0 = vlan_key v) = some w ∧ w.id = "") →
      find_id_for current v = fallback_id current v)
    ∧ (find_id_for current v = none →
      enable_step current v
        = (if v.enabled then FollowupOutcome.warned else FollowupOutcome.skipped)
      ∧ share_step current v
        = (if v.share_over_vpn then FollowupOutcome.warned else FollowupOutcome.skipped))
    ∧ (vlan_followups current vlans).length = vlans.length := by
  refine ⟨?_, ?_, ?_, ?_⟩
  · intro w hw hid
    unfold find_id_for
    rw [hw]
    simp only [if_pos hid]
  · intro hmiss
    rcases hmiss with hn | ⟨w, hw, hid⟩
    · unfold find_id_for
      rw [hn]
    · unfold find_id_for
      rw [hw]
      show (if w.id ≠ "" then some w.id else fallback_id current v) = fallback_id current v
      rw [if_neg (by simp [hid])]
  · intro hnone
    constructor
    · unfold enable_step
      rw [hnone]
      cases henb : v.enabled <;> simp
    · unfold share_step
      rw [hnone]
      cases hsh : v.share_over_vpn <;> simp
  · simp [vlan_followups]

/-- Witness for C8: a composite-key hit resolves to the persisted id,
and an uncorrelated definition only warns on both follow-up steps. -/
theorem c8_witness :
    find_id_for c8demo_current c8demo_vlan = some "idA"
    ∧ enable_step c8demo_current c8demo_vlan2 = FollowupOutcome.warned
    ∧ share_step c8demo_current c8demo_vlan2 = FollowupOutcome.warned := by
  refine ⟨?_, ?_, ?_⟩
  · exact (c8_vlan_correlation c8demo_current [] c8demo_vlan).1
      { name := "corp", display_name := "Corp", tag := "10", interface := "ge5",
        default_gateway := "10.0.0.1", id := "idA" } (by decide) (by decide)
  · exact ((c8_vlan_correlation c8demo_current [] c8demo_vlan2).2.2.1 (by decide)).1.trans
      (by decide)
  · exact ((c8_vlan_correlation c8demo_current [] c8demo_vlan2).2.2.1 (by decide)).2.trans
      (by decide)

/- ------------------------------------------------------------------
   Lemmas about the template resolver
   ------------------------------------------------------------------ -/

theorem resolver_resolve_state (catalog : List TemplateEntry) (n : String) (s : RunState) :
    (resolver_resolve catalog n s).2 = resolver_load catalog s := by
  unfold resolver_resolve
  cases hg : assoc_get (resolver_load catalog s).by_lower_name (pyLower (pyStrip n)) with
  | nil => simp [hg]
  | cons t rest =>
    cases rest with
    | nil => simp [hg]
    | cons u rest2 => simp [hg]

/-- Claim C9 (amended): TemplateResolver.resolve itself is cached --
two resolve calls within one run fetch the catalog at most once, and a
resolve on an already-loaded state does not touch the state at all --
but the failure path of ensure_template_id_for_row calls the catalog
endpoint directly to build the available-names hint, issuing one
additional fetch each time it is reached. -/
theorem c9_resolver_cache_and_hint_refetch (catalog : List TemplateEntry)
    (n1 n2 tid tname : String) (s : RunState) :
    ((resolver_resolve catalog n2 (resolver_resolve catalog n1 init_run_state).2).2.fetch_count
      = 1)
    ∧ (s.loaded = true → (resolver_resolve catalog n1 s).2 = s)
    ∧ (pyStrip tid = "" → pyStrip tname ≠ "" →
        (ensure_template_id_for_row catalog tid tname s).1.1 = false →
        (ensure_template_id_for_row catalog tid tname s).2.fetch_count
          = (resolver_resolve catalog (pyStrip tname) s).2.fetch_count + 1) := by
  have hload_loaded : ∀ s0 : RunState, s0.loaded = true → resolver_load catalog s0 = s0 := by
    intro s0 h0
    unfold resolver_load
    rw [if_pos h0]
  refine ⟨?_, ?_, ?_⟩
  · rw [resolver_resolve_state, resolver_resolve_state]
    have h1 : resolver_load catalog init_run_state
        = ⟨1, true, build_index catalog⟩ := by
      unfold resolver_load init_run_state get_templates_fetch
      rfl
    rw [h1, hload_loaded ⟨1, true, build_index catalog⟩ rfl]
  · intro h0
    rw [resolver_resolve_state, hload_loaded s h0]
  · intro htid htname hfail
    simp only [ensure_template_id_for_row] at hfail ⊢
    rw [if_neg (by simpa using htid), if_neg (by simpa using htname)] at hfail ⊢
    cases hres : (resolver_resolve catalog (pyStrip tname) s).1 with
    | none => rfl
    | some rid =>
      rw [hres] at hfail
      dsimp only at hfail ⊢
      by_cases hrid : rid ≠ ""
      · rw [if_pos hrid] at hfail
        simp at hfail
      · rw [if_neg hrid]
        rfl

/-- Counterexample for C9 as stated: one single failing resolution in a
fresh run already fetches the template catalog twice -- the failure
path of ensure_template_id_for_row does not reuse the cached
catalog. -/
theorem c9_counterexample :
    (ensure_template_id_for_row c9demo_catalog "" "NoSuchTemplate" init_run_state).2.fetch_count
      = 2
    ∧ (ensure_template_id_for_row c9demo_catalog "" "NoSuchTemplate" init_run_state).1.1
      = false := by
  exact ⟨by decide, by decide⟩

/-- Witness for C9 (amended): two resolve calls fetch once, and a
failing ensure on a loaded state fetches exactly once more. -/
theorem c9_witness :
    (resolver_resolve c9demo_catalog "dc-core"
        (resolver_resolve c9demo_catalog "Branch-Std" init_run_state).2).2.fetch_count = 1
    ∧ (ensure_template_id_for_row c9demo_catalog "" "NoSuch"
          ⟨1, true, build_index c9demo_catalog⟩).2.fetch_count
        = (resolver_resolve c9demo_catalog (pyStrip "NoSuch")
            ⟨1, true, build_index c9demo_catalog⟩).2.fetch_count + 1 := by
  constructor
  · exact (c9_resolver_cache_and_hint_refetch c9demo_catalog "Branch-Std" "dc-core" "" ""
      init_run_state).1
  · exact (c9_resolver_cache_and_hint_refetch c9demo_catalog "" "" "" "NoSuch"
      ⟨1, true, build_index c9demo_catalog⟩).2.2 (by decide) (by decide) (by decide)

/- ------------------------------------------------------------------
   Lemmas about stripping and the v2 name truncation
   ------------------------------------------------------------------ -/

theorem dropWhile_self (p : Char → Bool) (l : List Char) :
    (l.dropWhile p).dropWhile p = l.dropWhile p := by
  induction l with
  | nil => rfl
  | cons a t ih =>
    cases hp : p a
    · simp [List.dropWhile_cons, hp]
    · simp [List.dropWhile_cons, hp, ih]

theorem dropWhile_head_false (p : Char → Bool) :
    ∀ (l : List Char) (a : Char) (t : List Char), l.dropWhile p = a :: t → p a = false := by
  intro l
  induction l with
  | nil =>
    intro a t h
    simp at h
  | cons b l2 ih =>
    intro a t h
    cases hp : p b
    · rw [List.dropWhile_cons, hp] at h
      simp only [Bool.false_eq_true, if_false] at h
      injection h with h1 _
      rw [← h1]
      exact hp
    · rw [List.dropWhile_cons, hp] at h
      simp only [if_true] at h
      exact ih a t h

theorem stripChars_idem (l : List Char) : stripChars (stripChars l) = stripChars l := by
  unfold stripChars
  set u := l.dropWhile isPySpace with hu
  set w := (u.reverse.dropWhile isPySpace).reverse with hw
  have hw_rev : w.reverse = u.reverse.dropWhile isPySpace := by
    rw [hw, List.reverse_reverse]
  have h1 : w.dropWhile isPySpace = w := by
    cases hwc : w with
    | nil => rfl
    | cons a t =>
      have hsuf : w.reverse <:+ u.reverse := by
        rw [hw_rev]
        exact List.dropWhile_suffix _
      have hpre : w <+: u := by
        rwa [List.reverse_suffix] at hsuf
      obtain ⟨r, hr⟩ := hpre
      have hu2 : l.dropWhile isPySpace = a :: (t ++ r) := by
        rw [← hu, ← hr, hwc]
        simp
      have hpa : isPySpace a = false := dropWhile_head_false isPySpace l a (t ++ r) hu2
      rw [List.dropWhile_cons, hpa]
      simp
  have h2 : w.reverse.dropWhile isPySpace = w.reverse := by
    rw [hw_rev]
    exact dropWhile_self _ _
  rw [h1, h2, List.reverse_reverse]

theorem pyStrip_idem (s : String) : pyStrip (pyStrip s) = pyStrip s :=
  congrArg String.mk (stripChars_idem s.data)

theorem py_or_self (a : String) : py_or a a = a := by
  unfold py_or
  split <;> rfl

/-- Claim C10: for every VLAN CSV definition, the name field of the
submitted v2 payload is silently truncated to the first 16 characters
of the declared (stripped) name, while display_name keeps the full
declared name; the submitted name never exceeds 16 characters. -/
theorem c10_v2_name_truncated_display_full (r : VlanCsvRow) (gws : String) (cid : Int)
    (dns : String) :
    (vlan_to_v2_payload (vlan_from_csv_row r) gws cid dns).display_name = pyStrip r.name
    ∧ (vlan_to_v2_payload (vlan_from_csv_row r) gws cid dns).name
      = ⟨(pyStrip r.name).data.take 16⟩
    ∧ (vlan_to_v2_payload (vlan_from_csv_row r) gws cid dns).name.data.length ≤ 16 := by
  have hdisp : (vlan_to_v2_payload (vlan_from_csv_row r) gws cid dns).display_name
      = pyStrip r.name := by
    simp only [vlan_to_v2_payload, vlan_from_csv_row]
    rw [py_or_self]
  have hname : (vlan_to_v2_payload (vlan_from_csv_row r) gws cid dns).name
      = short_name (pyStrip r.name) 16 := by
    simp only [vlan_to_v2_payload, vlan_from_csv_row]
    rw [py_or_self, py_or_self]
  have hshort : short_name (pyStrip r.name) 16 = ⟨(pyStrip r.name).data.take 16⟩ := by
    unfold short_name
    rw [pyStrip_idem]
    by_cases hlen : (pyStrip r.name).data.length ≤ 16
    · rw [if_pos hlen]
      exact congrArg String.mk (List.take_of_length_le hlen).symm
    · rw [if_neg hlen]
  refine ⟨hdisp, hname.trans hshort, ?_⟩
  rw [hname, hshort]
  show ((pyStrip r.name).data.take 16).length ≤ 16
  rw [List.length_take]
  exact min_le_left _ _
